import Mathlib

/-!
Shallow embedding of the Zenith WebSocket client (class `ZenithWS` in the
repository's `index.js`, quoted inside `src/tool.js`).

Modelling conventions:
- JSON payloads (`Data` fields) are opaque to the client logic; they are
  represented by the type `JsonData` (a string).
- Promise completion handles (`fulfill`/`reject`) and subscription callbacks
  are represented by numeric identifiers; invoking one is recorded as an
  event in an event list returned alongside the updated state.
- `setTimeout`/`clearTimeout` are modelled by a registry `timers : Nat → Option Nat`
  mapping a timer handle to the delay it was armed with (`none` when cleared,
  spent, or never armed), plus a fresh-handle counter `nextTimerId`.
- The JS runtime is single-threaded; each handler runs to completion, so every
  handler is a plain state-transformer function.
-/

namespace Zenith

/-- Opaque JSON payload carried in `Data` fields. -/
abbrev JsonData := String

/-- Keys of the `this.pending` object: a numeric `TransactionID` for calls, or a
`Controller:Topic` string (from `makeKey`) for subscribe requests.  In JS both
live in one object; numeric keys stringify and never collide with `makeKey`
output, which always contains a colon. -/
inductive PKey
  | tid (n : Nat)
  | topic (s : String)
deriving DecidableEq, Repr

/-- `makeKey(obj)` from the source: `obj.Controller + ":" + obj.Topic`. -/
def makeKey (controller topic : String) : String :=
  controller ++ ":" ++ topic

/-- A value a promise can be rejected with. -/
inductive RVal
  | data (d : JsonData)
  | zerr (code msg : String)
  | terr (msg : String)
deriving DecidableEq, Repr

/-- Observable effects of a handler: settling a promise or invoking a
subscription callback. -/
inductive Ev
  | fulfilled (promiseId : Nat) (d : JsonData)
  | rejected (promiseId : Nat) (v : RVal)
  | callback (cbId : Nat) (d : JsonData)
deriving DecidableEq, Repr

/-- The request object built in `z_call`/`z_subscribe` and stored in
`this.pending`.  `promiseId` stands for the captured `fulfill`/`reject` pair;
`failTimer` is the handle of the 10 second deadline timer attached to the same
object after sending. -/
structure PendingReq where
  Controller : String
  Topic : String
  Data : Option JsonData
  Action : Option String
  TransactionID : Nat
  promiseId : Nat
  failTimer : Nat
deriving DecidableEq, Repr

/-- `this.subscriptions` is declared as a JS array (`[]`) but populated only
with string-keyed properties (`makeKey` output, always containing a colon, so
never a canonical array index).  Hence it has an array `length`, which only
numeric-index assignments would change, and a string-keyed property map. -/
structure SubsArr where
  length : Nat
  props : String → Option (List Nat)

/-- An inbound wire message as consumed by `ws_onMessage` after `JSON.parse`. -/
structure InMsg where
  TransactionID : Option Nat
  Controller : String
  Topic : String
  Action : Option String
  Result : Option String
  Data : JsonData
deriving DecidableEq, Repr

/-- An outbound wire frame as produced by `JSON.stringify(req)` (function-valued
properties such as `fulfill`/`reject` are dropped by `JSON.stringify`, and
`failTimer` is attached only after the send). -/
structure OutFrame where
  Controller : String
  Topic : String
  Action : Option String
  Data : Option JsonData
  Confirm : Bool
  TransactionID : Nat
deriving DecidableEq, Repr

/-- The OAuth token: opaque access token plus the reported lifetime
`data.expires_in` (seconds). -/
structure Token where
  accessToken : String
  expires_in : Nat
deriving DecidableEq, Repr

/-- The mutable state of one `ZenithWS` instance (the fields touched by the
correlation, subscription, keepalive and token-refresh logic). -/
structure ZState where
  lastTransactionID : Nat
  pending : PKey → Option PendingReq
  subscriptions : SubsArr
  pingTimer : Option Nat
  tokenTimer : Option Nat
  subscriptionTimer : Option Nat
  timers : Nat → Option Nat
  nextTimerId : Nat
  token : Token

def PING_TIMEOUT_MS : Nat := 30000
def CALL_TIMEOUT_MS : Nat := 10000
def SUB_PING_TIMEOUT_MS : Nat := 10000

/-- The constructor of `ZenithWS`: empty pending table, empty subscriptions
array, counter at 0, no timers.  (`token` is only read after `auth` has stored
a real token; the constructor argument here is that token-to-be.) -/
def initState (tok : Token) : ZState :=
  { lastTransactionID := 0
    pending := fun _ => none
    subscriptions := { length := 0, props := fun _ => none }
    pingTimer := none
    tokenTimer := none
    subscriptionTimer := none
    timers := fun _ => none
    nextTimerId := 0
    token := tok }

/-- `setTimeout(handler, delay)`: allocate a fresh handle armed with `delay`. -/
def setT (s : ZState) (delay : Nat) : ZState × Nat :=
  ({ s with
      timers := fun j => if j = s.nextTimerId then some delay else s.timers j
      nextTimerId := s.nextTimerId + 1 },
   s.nextTimerId)

/-- `clearTimeout(h)` on a known handle. -/
def timerOff (s : ZState) (h : Nat) : ZState :=
  { s with timers := fun j => if j = h then none else s.timers j }

/-- `if (this.x) clearTimeout(this.x)` for an optional handle field. -/
def clearT (s : ZState) (h : Option Nat) : ZState :=
  { s with timers := fun j => if some j = h then none else s.timers j }

/-- `resetPingTimeout()`: clear any armed idle-ping timer and arm a fresh
30 second one whose handler sends a ws-level ping. -/
def resetPingTimeout (s : ZState) : ZState :=
  let s1 := clearT s s.pingTimer
  let p := setT s1 PING_TIMEOUT_MS
  { p.1 with pingTimer := some p.2 }

/-- `subscriptionPing()`: arm a 10 second timer (without clearing the previous
handle field first; the field is simply overwritten). -/
def subscriptionPing (s : ZState) : ZState :=
  let p := setT s SUB_PING_TIMEOUT_MS
  { p.1 with subscriptionTimer := some p.2 }

/-- The handler armed by `subscriptionPing`, firing as timer handle `h`:
`if ((this.subscriptions.length > 0) && this.pingTimer) this.subscriptionPing()`.
`this.pingTimer` holds a handle object, truthy whenever set. -/
def subscriptionTimerFire (s : ZState) (h : Nat) : ZState :=
  let s0 := timerOff s h
  if 0 < s0.subscriptions.length ∧ s0.pingTimer.isSome then
    subscriptionPing s0
  else
    s0

/-- Key selection at the top of `ws_onMessage`: `if (jsonRes.TransactionID)`
uses JS truthiness, so an absent or zero id routes by `Controller:Topic`. -/
def msgKey (m : InMsg) : PKey :=
  match m.TransactionID with
  | some n => if n = 0 then PKey.topic (makeKey m.Controller m.Topic) else PKey.tid n
  | none => PKey.topic (makeKey m.Controller m.Topic)

/-- `(jsonRes.Action == "Error") || (jsonRes.Result == "Error")`. -/
def isErrorMsg (m : InMsg) : Bool :=
  m.Action == some "Error" || m.Result == some "Error"

/-- `this.subscriptions[key]`: a numeric `TransactionID` key indexes the array
part, which is never populated (all stored keys come from `makeKey` and contain
a colon), so it finds nothing; a string key reads the property map. -/
def subsLookup (a : SubsArr) (k : PKey) : Option (List Nat) :=
  match k with
  | PKey.tid _ => none
  | PKey.topic t => a.props t

/-- `if (!this.subscriptions[key]) this.subscriptions[key] = [];`
`this.subscriptions[key].push(cb)` — `key` comes from `makeKey`, contains a
colon, hence is a plain string property and the array `length` is unchanged. -/
def pushSub (a : SubsArr) (key : String) (c : Nat) : SubsArr :=
  { length := a.length
    props := fun k => if k = key then some ((a.props key).getD [] ++ [c]) else a.props k }

/-- `ws_onMessage(data)`: route by `TransactionID` when truthy, else by
`makeKey`; complete a matching pending entry (clearing its deadline timer and
removing it from the table), rejecting and RETURNING EARLY when the message is
marked `Error`, fulfilling otherwise; then broadcast to every callback
registered under the key. -/
def ws_onMessage (s : ZState) (m : InMsg) : ZState × List Ev :=
  let key := msgKey m
  match s.pending key with
  | some d =>
    let s1 := timerOff s d.failTimer
    let s2 := { s1 with pending := fun k => if k = key then none else s1.pending k }
    if isErrorMsg m then
      (s2, [Ev.rejected d.promiseId (RVal.data m.Data)])
    else
      match subsLookup s2.subscriptions key with
      | some cbs => (s2, Ev.fulfilled d.promiseId m.Data :: cbs.map (fun c => Ev.callback c m.Data))
      | none => (s2, [Ev.fulfilled d.promiseId m.Data])
  | none =>
    match subsLookup s.subscriptions key with
    | some cbs => (s, cbs.map (fun c => Ev.callback c m.Data))
    | none => (s, [])

/-- `z_call(controller, topic, params)` with `promiseId` standing for the
promise created by the call.  Allocates `++this.lastTransactionID`, stores the
request in `this.pending` under the numeric id, resets the idle-ping timer,
sends the frame, and arms the 10 second deadline timer onto the same request
object (so the stored entry carries the deadline handle). -/
def z_call (s : ZState) (controller topic : String) (params : Option JsonData)
    (pid : Nat) : ZState × List OutFrame × Nat :=
  let tid := s.lastTransactionID + 1
  let s1 := { s with lastTransactionID := tid }
  let s2 := resetPingTimeout s1
  let p := setT s2 CALL_TIMEOUT_MS
  let req : PendingReq :=
    { Controller := controller, Topic := topic, Data := params, Action := none
      TransactionID := tid, promiseId := pid, failTimer := p.2 }
  let s3 := { p.1 with pending := fun k => if k = PKey.tid tid then some req else p.1.pending k }
  let frame : OutFrame :=
    { Controller := controller, Topic := topic, Action := none, Data := params
      Confirm := false, TransactionID := tid }
  (s3, [frame], tid)

/-- The deadline handler armed in `z_call` (a closure over the request object):
unconditionally removes the pending entry for the captured `TransactionID` and
rejects with the TIMEOUT error.  It can only run while its own timer handle is
still armed; theorems state that as a hypothesis. -/
def callFailTimerFire (s : ZState) (req : PendingReq) : ZState × List Ev :=
  let s0 := timerOff s req.failTimer
  ({ s0 with pending := fun k => if k = PKey.tid req.TransactionID then none else s0.pending k },
   [Ev.rejected req.promiseId (RVal.zerr "TIMEOUT" "No response to call")])

/-- `z_subscribe(controller, topic, params, cb)`: a missing (falsy) callback
rejects with a TypeError before any state is touched.  Otherwise: allocate a
transaction id, append the callback under the `makeKey` key, arm the
subscription liveness timer, store the request in `this.pending` under the KEY
(not the id), reset the idle-ping timer, send, and arm the deadline timer. -/
def z_subscribe (s : ZState) (controller topic : String) (cb : Option Nat)
    (pid : Nat) : ZState × List OutFrame × List Ev :=
  match cb with
  | none => (s, [], [Ev.rejected pid (RVal.terr "Missing callback function.")])
  | some c =>
    let tid := s.lastTransactionID + 1
    let key := makeKey controller topic
    let s1 := { s with lastTransactionID := tid }
    let s2 := { s1 with subscriptions := pushSub s1.subscriptions key c }
    let s3 := subscriptionPing s2
    let s4 := resetPingTimeout s3
    let p := setT s4 CALL_TIMEOUT_MS
    let req : PendingReq :=
      { Controller := controller, Topic := topic, Data := none, Action := some "Sub"
        TransactionID := tid, promiseId := pid, failTimer := p.2 }
    let s5 := { p.1 with pending := fun k => if k = PKey.topic key then some req else p.1.pending k }
    let frame : OutFrame :=
      { Controller := controller, Topic := topic, Action := some "Sub", Data := none
        Confirm := false, TransactionID := tid }
    (s5, [frame], [])

/-- `auth_setRefresh()`: clear any previous token timer and arm a new one at
`this.token.data.expires_in * 900` milliseconds (90 percent of the reported
lifetime in seconds, scaled to milliseconds). -/
def auth_setRefresh (s : ZState) : ZState :=
  let s1 := clearT s s.tokenTimer
  let p := setT s1 (s.token.expires_in * 900)
  { p.1 with tokenTimer := some p.2 }

/-- The continuation in `auth()` once a token is obtained: store it, then
`auth_setRefresh()`. -/
def auth_onToken (s : ZState) (tok : Token) : ZState :=
  auth_setRefresh { s with token := tok }

/-- The `Data` payload sent by `auth_authToken`. -/
def authTokenParams (accessToken : String) : JsonData :=
  "Provider=Bearer;AccessToken=" ++ accessToken

/-- `auth_refreshToken()`, given the token produced by `this.token.refresh()`:
store the new token, re-arm the refresh timer, then notify the server via the
`Auth/AuthToken` call. -/
def auth_refreshToken (s : ZState) (newTok : Token) (pid : Nat) :
    ZState × List OutFrame × Nat :=
  let s1 := auth_onToken s newTok
  z_call s1 "Auth" "AuthToken" (some (authTokenParams newTok.accessToken)) pid

/-- The shape of the response `Data` inspected by `auth_authToken`. -/
structure AuthTokenResult where
  Result : Option String
deriving DecidableEq, Repr

/-- A thrown JS value: either a constructed `ZenithError` or a runtime
`TypeError`. -/
inductive JsThrow
  | typeError (msg : String)
  | zenithError (code msg : String)
deriving DecidableEq, Repr

/-- The expression `ZenithError(code, msg)` as written in `auth_authToken` —
WITHOUT `new`.  `ZenithError` is a class (`error.js`); invoking a class
constructor without `new` raises a TypeError before any error object with the
given code is constructed. -/
def ZenithErrorWithoutNew (code msg : String) : JsThrow :=
  JsThrow.typeError "Class constructor ZenithError cannot be invoked without new"

/-- The `.then` continuation of `auth_authToken` applied to the response data:
`if (d.Result != "Success") throw ZenithError("ACCESS_REVOKED", ...)`. -/
def auth_authToken_then (d : AuthTokenResult) : Except JsThrow Unit :=
  if d.Result == some "Success" then Except.ok ()
  else Except.error (ZenithErrorWithoutNew "ACCESS_REVOKED" "Token reauthentication failed.")

/-- One call issued through `z_call`: its addressing, payload and the identity
of the promise handed to the caller. -/
structure CallSpec where
  controller : String
  topic : String
  params : Option JsonData
  promiseId : Nat
deriving DecidableEq, Repr

/-- Issue a sequence of calls on one connection. -/
def issueCalls (s : ZState) (specs : List CallSpec) : ZState :=
  specs.foldl (fun st c => (z_call st c.controller c.topic c.params c.promiseId).1) s

/-- Feed a sequence of inbound messages through `ws_onMessage`, collecting the
events in arrival order. -/
def runMessages (s : ZState) (ms : List InMsg) : ZState × List Ev :=
  match ms with
  | [] => (s, [])
  | m :: rest =>
    let r := ws_onMessage s m
    let r2 := runMessages r.1 rest
    (r2.1, r.2 ++ r2.2)

/-- A synthetic response to the call with transaction id `t`; `err` marks it
with `Result: "Error"`. -/
def respMsg (t : Nat) (err : Bool) (d : JsonData) : InMsg :=
  { TransactionID := some t, Controller := "", Topic := "", Action := none
    Result := if err then some "Error" else none, Data := d }

/-- The delivery a response produces on the promise it matches: rejection with
the payload for an error-marked response, fulfillment otherwise. -/
def deliverEv (p : Nat) (err : Bool) (d : JsonData) : Ev :=
  if err then Ev.rejected p (RVal.data d) else Ev.fulfilled p d

/-- The promise identity of the i-th issued call. -/
def pidAt (specs : List CallSpec) (i : Nat) : Nat :=
  match specs.get? i with
  | some c => c.promiseId
  | none => 0

/-! ## Characterization lemmas -/

/-- The events emitted by `ws_onMessage`, by case on the pending lookup and the
error marking. -/
theorem onMessage_events (s : ZState) (m : InMsg) :
    (ws_onMessage s m).2 =
      match s.pending (msgKey m) with
      | some d =>
        if isErrorMsg m then [Ev.rejected d.promiseId (RVal.data m.Data)]
        else Ev.fulfilled d.promiseId m.Data ::
          ((subsLookup s.subscriptions (msgKey m)).getD []).map (fun c => Ev.callback c m.Data)
      | none =>
        ((subsLookup s.subscriptions (msgKey m)).getD []).map (fun c => Ev.callback c m.Data) := by
  unfold ws_onMessage
  cases hp : s.pending (msgKey m) with
  | none =>
    simp only [hp]
    cases hs : subsLookup s.subscriptions (msgKey m) <;> simp [hs]
  | some d =>
    simp only [hp]
    cases he : isErrorMsg m with
    | true => simp [he]
    | false =>
      cases hs : subsLookup s.subscriptions (msgKey m) <;> simp [he, hs, timerOff]

/-- The state after `ws_onMessage`: on a pending match the deadline timer is
cleared and the entry removed; otherwise the state is untouched. -/
theorem onMessage_state (s : ZState) (m : InMsg) :
    (ws_onMessage s m).1 =
      match s.pending (msgKey m) with
      | some d =>
        { timerOff s d.failTimer with
          pending := fun k => if k = msgKey m then none else s.pending k }
      | none => s := by
  unfold ws_onMessage
  cases hp : s.pending (msgKey m) with
  | none =>
    simp only [hp]
    cases hs : subsLookup s.subscriptions (msgKey m) <;> simp [hs]
  | some d =>
    simp only [hp]
    cases he : isErrorMsg m with
    | true =>
      simp [he]
      funext k
      simp [timerOff]
    | false =>
      cases hs : subsLookup s.subscriptions (msgKey m) <;> simp [he, hs, timerOff]

/-! ## Theorems -/

/-- C10: calling `z_subscribe` with a missing (falsy) callback rejects the
returned promise with a TypeError and leaves the client state byte-for-byte
unchanged — no callback registered, no pending entry, no timer armed, and no
frame sent. -/
theorem subscribe_missing_callback (s : ZState) (controller topic : String) (pid : Nat) :
    z_subscribe s controller topic none pid
      = (s, [], [Ev.rejected pid (RVal.terr "Missing callback function.")]) := rfl

/-- C8: when the `Auth/AuthToken` response carries a `Result` other than
`Success`, the continuation in `auth_authToken` evaluates
`ZenithError("ACCESS_REVOKED", ...)` without `new`, so the operation fails with
a TypeError rather than a ZenithError carrying code `ACCESS_REVOKED`; nothing
retries it. -/
theorem authToken_failure_typeerror :
    auth_authToken_then { Result := some "Rejected" }
      = Except.error (JsThrow.typeError
          "Class constructor ZenithError cannot be invoked without new") ∧
    ∀ code msg, auth_authToken_then { Result := some "Rejected" }
      ≠ Except.error (JsThrow.zenithError code msg) := by
  constructor
  · rfl
  · intro code msg hcontra
    simp [auth_authToken_then, ZenithErrorWithoutNew] at hcontra

/-- C5: processing an inbound message through `ws_onMessage` does NOT re-arm
the idle ping timer: the `pingTimer` field is untouched, no new timer is
created (`nextTimerId` is unchanged), and the only change to the timer registry
is the clearing of a deadline timer — contrary to the spec (and to the comment
on `resetPingTimeout`, which claims it is called on receive). -/
theorem onMessage_does_not_reset_ping_timer (s : ZState) (m : InMsg) :
    ((ws_onMessage s m).1).pingTimer = s.pingTimer ∧
    ((ws_onMessage s m).1).nextTimerId = s.nextTimerId ∧
    ∀ h, ((ws_onMessage s m).1).timers h = s.timers h ∨
         ((ws_onMessage s m).1).timers h = none := by
  unfold ws_onMessage
  cases hp : s.pending (msgKey m) with
  | none =>
    simp only [hp]
    cases hs : subsLookup s.subscriptions (msgKey m) <;> simp [hs]
  | some d =>
    simp only [hp]
    cases he : isErrorMsg m with
    | true =>
      simp [he, timerOff]
      intro h
      by_cases hh : h = d.failTimer <;> simp [hh]
    | false =>
      cases hs : subsLookup s.subscriptions (msgKey m) <;>
        · simp [he, hs, timerOff]
          intro h
          by_cases hh : h = d.failTimer <;> simp [hh]

/-- C6: the subscription liveness timer never reschedules itself.
`z_subscribe` stores callbacks under string keys of a JS array, so
`subscriptions.length` stays at its initial 0; the handler in
`subscriptionPing` checks `subscriptions.length > 0` and therefore never
re-arms, even while a subscription is registered and the ping timer is live —
contradicting the comment on `subscriptionPing`. -/
theorem subscription_liveness_not_rearmed :
    (∀ (s : ZState) (controller topic : String) (c pid : Nat),
        ((z_subscribe s controller topic (some c) pid).1).subscriptions.length
          = s.subscriptions.length) ∧
    (∀ (s : ZState) (h : Nat), s.subscriptions.length = 0 →
        subscriptionTimerFire s h = timerOff s h) := by
  constructor
  · intro s controller topic c pid
    simp [z_subscribe, pushSub, subscriptionPing, resetPingTimeout, setT, clearT]
  · intro s h h0
    simp [subscriptionTimerFire, timerOff, h0]

/-- C2: if a call is still pending when its deadline fires (its deadline timer
is still armed, i.e. no matching response arrived and cleared it), the handler
removes the PendingCall from the table and rejects the promise with the
TIMEOUT ZenithError; afterwards any message carrying that TransactionID finds
no pending entry and is dropped with no state change and no event — no double
fulfillment and no error. -/
theorem call_timeout_drops_late (s : ZState) (req : PendingReq)
    (hp : s.pending (PKey.tid req.TransactionID) = some req)
    (harm : s.timers req.failTimer = some CALL_TIMEOUT_MS) :
    (callFailTimerFire s req).2
      = [Ev.rejected req.promiseId (RVal.zerr "TIMEOUT" "No response to call")] ∧
    (callFailTimerFire s req).1.pending (PKey.tid req.TransactionID) = none ∧
    (∀ k, k ≠ PKey.tid req.TransactionID →
      (callFailTimerFire s req).1.pending k = s.pending k) ∧
    ∀ m, msgKey m = PKey.tid req.TransactionID →
      ws_onMessage (callFailTimerFire s req).1 m = ((callFailTimerFire s req).1, []) := by
  refine ⟨rfl, by simp [callFailTimerFire, timerOff], ?_, ?_⟩
  · intro k hk
    simp [callFailTimerFire, timerOff, hk]
  · intro m hm
    have hpn : (callFailTimerFire s req).1.pending (PKey.tid req.TransactionID) = none := by
      simp [callFailTimerFire, timerOff]
    unfold ws_onMessage
    simp only [hm, hpn]
    simp [subsLookup]

/-- The state right after one `z_call` for `Market/QueryMarkets` on a fresh
client (the call got transaction id 1, promise 7, deadline timer handle 1). -/
def stateC2 : ZState :=
  (z_call (initState { accessToken := "t", expires_in := 100 })
    "Market" "QueryMarkets" none 7).1

/-- The pending request stored by the call in `stateC2`. -/
def reqC2 : PendingReq :=
  { Controller := "Market", Topic := "QueryMarkets", Data := none, Action := none
    TransactionID := 1, promiseId := 7, failTimer := 1 }

/-- Witness for C2: the deadline of the call in `stateC2` fires, rejects with
TIMEOUT, and a late response with TransactionID 1 is dropped without effect. -/
theorem call_timeout_drops_late_witness :
    stateC2.pending (PKey.tid reqC2.TransactionID) = some reqC2 ∧
    stateC2.timers reqC2.failTimer = some CALL_TIMEOUT_MS ∧
    ((callFailTimerFire stateC2 reqC2).2
        = [Ev.rejected reqC2.promiseId (RVal.zerr "TIMEOUT" "No response to call")] ∧
      (callFailTimerFire stateC2 reqC2).1.pending (PKey.tid reqC2.TransactionID) = none ∧
      (∀ k, k ≠ PKey.tid reqC2.TransactionID →
        (callFailTimerFire stateC2 reqC2).1.pending k = stateC2.pending k) ∧
      ∀ m, msgKey m = PKey.tid reqC2.TransactionID →
        ws_onMessage (callFailTimerFire stateC2 reqC2).1 m
          = ((callFailTimerFire stateC2 reqC2).1, [])) :=
  ⟨by decide, by decide, call_timeout_drops_late stateC2 reqC2 (by decide) (by decide)⟩

/-- The pending table entry created by `z_subscribe`, stored under the topic
key: carries the subscribe promise and the deadline handle. -/
theorem z_subscribe_pending_self (s : ZState) (controller topic : String) (c pid : Nat) :
    ((z_subscribe s controller topic (some c) pid).1).pending
        (PKey.topic (makeKey controller topic))
      = some { Controller := controller, Topic := topic, Data := none, Action := some "Sub"
               TransactionID := s.lastTransactionID + 1, promiseId := pid
               failTimer := s.nextTimerId + 1 + 1 } := by
  simp [z_subscribe, subscriptionPing, resetPingTimeout, setT, clearT]

/-- `z_subscribe` appends the callback under the topic key. -/
theorem z_subscribe_subs (s : ZState) (controller topic : String) (c pid : Nat) :
    ((z_subscribe s controller topic (some c) pid).1).subscriptions
      = pushSub s.subscriptions (makeKey controller topic) c := by
  simp [z_subscribe, subscriptionPing, resetPingTimeout, setT, clearT]

/-- The state right after subscribing to `Market/Trades!BHP.ASX` with callback
6 and promise 17 on a fresh client. -/
def stateC3 : ZState :=
  (z_subscribe (initState { accessToken := "t", expires_in := 100 })
    "Market" "Trades!BHP.ASX" (some 6) 17).1

/-- An error-marked first message for that new subscription's key. -/
def msgC3 : InMsg :=
  { TransactionID := none, Controller := "Market", Topic := "Trades!BHP.ASX"
    Action := some "Error", Result := none, Data := "bad" }

/-- C3 counterexample: for a subscription just created by `z_subscribe`, a
first matching inbound message without a TransactionID that is marked `Error`
REJECTS the subscribe promise and does NOT invoke the registered callback (the
Error branch of `ws_onMessage` returns before the broadcast) — so the first
matching message does not always resolve the promise and fire the callback. -/
theorem subscribe_first_error_counterexample :
    (stateC3.pending (PKey.topic "Market:Trades!BHP.ASX")).map PendingReq.promiseId
      = some 17 ∧
    stateC3.subscriptions.props "Market:Trades!BHP.ASX" = some [6] ∧
    msgKey msgC3 = PKey.topic "Market:Trades!BHP.ASX" ∧
    (ws_onMessage stateC3 msgC3).2 = [Ev.rejected 17 (RVal.data "bad")] ∧
    Ev.fulfilled 17 msgC3.Data ∉ (ws_onMessage stateC3 msgC3).2 ∧
    Ev.callback 6 msgC3.Data ∉ (ws_onMessage stateC3 msgC3).2 := by decide

/-- C3 amended: for every subscription created by `z_subscribe`, the first
inbound message without a TransactionID whose `Controller:Topic` key equals
the subscription key completes the subscribe promise — removing the
key-addressed pending slot and clearing its deadline timer — and, UNLESS the
message is marked `Error` (by `Action` or `Result`), it resolves the promise
and is delivered to the callbacks registered for the key (the new callback
included, in registration order), both effects from that one message; an
Error-marked first message instead rejects the promise and skips the
callbacks. -/
theorem subscribe_first_message_amended (s0 : ZState) (controller topic : String)
    (c pid : Nat) (m : InMsg)
    (hmk : m.TransactionID = none)
    (hkey : makeKey m.Controller m.Topic = makeKey controller topic) :
    ∃ req,
      ((z_subscribe s0 controller topic (some c) pid).1).pending
          (PKey.topic (makeKey controller topic)) = some req ∧
      req.promiseId = pid ∧
      (ws_onMessage ((z_subscribe s0 controller topic (some c) pid).1) m).1.pending
          (PKey.topic (makeKey controller topic)) = none ∧
      (ws_onMessage ((z_subscribe s0 controller topic (some c) pid).1) m).1.timers
          req.failTimer = none ∧
      (isErrorMsg m = false →
        (ws_onMessage ((z_subscribe s0 controller topic (some c) pid).1) m).2
          = Ev.fulfilled pid m.Data ::
            ((s0.subscriptions.props (makeKey controller topic)).getD [] ++ [c]).map
              (fun cb => Ev.callback cb m.Data)) ∧
      (isErrorMsg m = true →
        (ws_onMessage ((z_subscribe s0 controller topic (some c) pid).1) m).2
          = [Ev.rejected pid (RVal.data m.Data)]) := by
  have hmkey : msgKey m = PKey.topic (makeKey controller topic) := by
    simp [msgKey, hmk, hkey]
  have hpend := z_subscribe_pending_self s0 controller topic c pid
  have hsubs : subsLookup ((z_subscribe s0 controller topic (some c) pid).1).subscriptions
      (PKey.topic (makeKey controller topic))
      = some ((s0.subscriptions.props (makeKey controller topic)).getD [] ++ [c]) := by
    rw [subsLookup, z_subscribe_subs]
    simp [pushSub]
  refine ⟨_, hpend, rfl, ?_, ?_, ?_, ?_⟩
  · rw [onMessage_state, hmkey, hpend]
    simp
  · rw [onMessage_state, hmkey, hpend]
    simp [timerOff]
  · intro hne
    rw [onMessage_events, hmkey, hpend]
    simp [hne, hsubs]
  · intro he
    rw [onMessage_events, hmkey, hpend]
    simp [he]

/-- A non-error first message for the `Zenith:ServerInfo` subscription. -/
def msgC3w : InMsg :=
  { TransactionID := none, Controller := "Zenith", Topic := "ServerInfo"
    Action := none, Result := none, Data := "srv" }

/-- Witness for the amended C3: on a fresh client, subscribe to
`Zenith/ServerInfo` with callback 5 and promise 13; the first matching server
message resolves the promise and invokes the callback. -/
theorem subscribe_first_message_amended_witness :
    (∃ req,
      ((z_subscribe (initState { accessToken := "t", expires_in := 100 })
          "Zenith" "ServerInfo" (some 5) 13).1).pending
          (PKey.topic (makeKey "Zenith" "ServerInfo")) = some req ∧
      req.promiseId = 13 ∧
      (ws_onMessage ((z_subscribe (initState { accessToken := "t", expires_in := 100 })
          "Zenith" "ServerInfo" (some 5) 13).1) msgC3w).1.pending
          (PKey.topic (makeKey "Zenith" "ServerInfo")) = none ∧
      (ws_onMessage ((z_subscribe (initState { accessToken := "t", expires_in := 100 })
          "Zenith" "ServerInfo" (some 5) 13).1) msgC3w).1.timers req.failTimer = none ∧
      (isErrorMsg msgC3w = false →
        (ws_onMessage ((z_subscribe (initState { accessToken := "t", expires_in := 100 })
            "Zenith" "ServerInfo" (some 5) 13).1) msgC3w).2
          = Ev.fulfilled 13 msgC3w.Data ::
            (((initState { accessToken := "t", expires_in := 100 }).subscriptions.props
                (makeKey "Zenith" "ServerInfo")).getD [] ++ [5]).map
              (fun cb => Ev.callback cb msgC3w.Data)) ∧
      (isErrorMsg msgC3w = true →
        (ws_onMessage ((z_subscribe (initState { accessToken := "t", expires_in := 100 })
            "Zenith" "ServerInfo" (some 5) 13).1) msgC3w).2
          = [Ev.rejected 13 (RVal.data msgC3w.Data)])) ∧
    (ws_onMessage ((z_subscribe (initState { accessToken := "t", expires_in := 100 })
        "Zenith" "ServerInfo" (some 5) 13).1) msgC3w).2
      = [Ev.fulfilled 13 "srv", Ev.callback 5 "srv"] :=
  ⟨subscribe_first_message_amended (initState { accessToken := "t", expires_in := 100 })
     "Zenith" "ServerInfo" 5 13 msgC3w (by decide) (by decide),
   by decide⟩

/-- C7: `auth_setRefresh` (run after authentication and after every refresh)
arms the token timer at `expires_in * 900` ms — 90 percent of the reported
lifetime, so `expires_in = 100` seconds fires at 90000 ms — clearing the prior
refresh timer so exactly one is live; and `auth_refreshToken` re-arms from the
NEW token's lifetime. -/
theorem refresh_timer_ninety_percent (s : ZState) (tok newTok : Token) (h0 pid : Nat)
    (hold : s.tokenTimer = some h0)
    (hlt : h0 < s.nextTimerId)
    (hping : ∀ hp, s.pingTimer = some hp → hp < s.nextTimerId) :
    (auth_onToken s tok).tokenTimer = some s.nextTimerId ∧
    (auth_onToken s tok).timers s.nextTimerId = some (tok.expires_in * 900) ∧
    (auth_onToken s tok).timers h0 = none ∧
    (tok.expires_in = 100 → (auth_onToken s tok).timers s.nextTimerId = some 90000) ∧
    ((auth_refreshToken s newTok pid).1).tokenTimer = some s.nextTimerId ∧
    ((auth_refreshToken s newTok pid).1).timers s.nextTimerId
      = some (newTok.expires_in * 900) ∧
    ((auth_refreshToken s newTok pid).1).timers h0 = none := by
  have f1 : s.nextTimerId ≠ s.nextTimerId + 1 := by omega
  have f2 : s.nextTimerId ≠ s.nextTimerId + 1 + 1 := by omega
  have f3 : h0 ≠ s.nextTimerId := by omega
  have f4 : h0 ≠ s.nextTimerId + 1 := by omega
  have f5 : h0 ≠ s.nextTimerId + 1 + 1 := by omega
  refine ⟨?_, ?_, ?_, ?_, ?_, ?_, ?_⟩
  · simp [auth_onToken, auth_setRefresh, setT, clearT]
  · simp [auth_onToken, auth_setRefresh, setT, clearT]
  · simp [auth_onToken, auth_setRefresh, setT, clearT, hold, f3]
  · intro h100
    simp [auth_onToken, auth_setRefresh, setT, clearT, h100]
  · simp [auth_refreshToken, auth_onToken, auth_setRefresh, z_call,
      resetPingTimeout, setT, clearT]
  · cases hpt : s.pingTimer with
    | none =>
      simp [auth_refreshToken, auth_onToken, auth_setRefresh, z_call,
        resetPingTimeout, setT, clearT, hpt, f1, f2]
    | some hp =>
      have f6 : s.nextTimerId ≠ hp := by
        have := hping hp hpt
        omega
      simp [auth_refreshToken, auth_onToken, auth_setRefresh, z_call,
        resetPingTimeout, setT, clearT, hpt, f1, f2, f6]
  · simp [auth_refreshToken, auth_onToken, auth_setRefresh, z_call,
      resetPingTimeout, setT, clearT, hold, f3, f4, f5]

/-- A client holding a token with a refresh timer armed as handle 0. -/
def stateC7 : ZState :=
  { lastTransactionID := 0
    pending := fun _ => none
    subscriptions := { length := 0, props := fun _ => none }
    pingTimer := none
    tokenTimer := some 0
    subscriptionTimer := none
    timers := fun j => if j = 0 then some 45000 else none
    nextTimerId := 1
    token := { accessToken := "old", expires_in := 50 } }

/-- Witness for C7: storing a token with `expires_in = 100` arms the refresh
timer at 90000 ms and clears the prior one; a refresh with a 200 second token
re-arms at 180000 ms. -/
theorem refresh_timer_ninety_percent_witness :
    stateC7.tokenTimer = some 0 ∧ 0 < stateC7.nextTimerId ∧
    ((auth_onToken stateC7 { accessToken := "new", expires_in := 100 }).tokenTimer
        = some stateC7.nextTimerId ∧
      (auth_onToken stateC7 { accessToken := "new", expires_in := 100 }).timers
          stateC7.nextTimerId
        = some (({ accessToken := "new", expires_in := 100 } : Token).expires_in * 900) ∧
      (auth_onToken stateC7 { accessToken := "new", expires_in := 100 }).timers 0 = none ∧
      (({ accessToken := "new", expires_in := 100 } : Token).expires_in = 100 →
        (auth_onToken stateC7 { accessToken := "new", expires_in := 100 }).timers
            stateC7.nextTimerId = some 90000) ∧
      ((auth_refreshToken stateC7 { accessToken := "newer", expires_in := 200 } 31).1).tokenTimer
        = some stateC7.nextTimerId ∧
      ((auth_refreshToken stateC7 { accessToken := "newer", expires_in := 200 } 31).1).timers
          stateC7.nextTimerId
        = some (({ accessToken := "newer", expires_in := 200 } : Token).expires_in * 900) ∧
      ((auth_refreshToken stateC7 { accessToken := "newer", expires_in := 200 } 31).1).timers 0
        = none) :=
  ⟨by decide, by decide,
   refresh_timer_ninety_percent stateC7 { accessToken := "new", expires_in := 100 }
     { accessToken := "newer", expires_in := 200 } 0 31 (by decide) (by decide)
     (by intro hp h; simp [stateC7] at h)⟩

/-! ## Correlation by transaction id (C1) -/

/-- `z_call` advances the transaction counter by one. -/
theorem z_call_lastTID (s : ZState) (c t : String) (p : Option JsonData) (pid : Nat) :
    ((z_call s c t p pid).1).lastTransactionID = s.lastTransactionID + 1 := by
  simp [z_call, resetPingTimeout, setT, clearT]

/-- The pending entry recorded by `z_call` under its fresh transaction id. -/
theorem z_call_pending_self (s : ZState) (c t : String) (p : Option JsonData) (pid : Nat) :
    ((z_call s c t p pid).1).pending (PKey.tid (s.lastTransactionID + 1))
      = some { Controller := c, Topic := t, Data := p, Action := none
               TransactionID := s.lastTransactionID + 1, promiseId := pid
               failTimer := s.nextTimerId + 1 } := by
  simp [z_call, resetPingTimeout, setT, clearT]

/-- `z_call` touches no pending entry other than its fresh transaction id. -/
theorem z_call_pending_other (s : ZState) (c t : String) (p : Option JsonData) (pid : Nat)
    (k : PKey) (hk : k ≠ PKey.tid (s.lastTransactionID + 1)) :
    ((z_call s c t p pid).1).pending k = s.pending k := by
  simp [z_call, resetPingTimeout, setT, clearT, hk]

/-- Unfolding one step of `issueCalls`. -/
theorem issueCalls_cons (s : ZState) (c : CallSpec) (rest : List CallSpec) :
    issueCalls s (c :: rest)
      = issueCalls ((z_call s c.controller c.topic c.params c.promiseId).1) rest := rfl

/-- `issueCalls` advances the transaction counter by the number of calls. -/
theorem issueCalls_lastTID (specs : List CallSpec) : ∀ s : ZState,
    (issueCalls s specs).lastTransactionID = s.lastTransactionID + specs.length := by
  induction specs with
  | nil => intro s; rfl
  | cons c rest ih =>
    intro s
    rw [issueCalls_cons, ih, z_call_lastTID]
    simp [List.length_cons]
    omega

/-- Issuing further calls never disturbs a pending entry whose transaction id
is at or below the current counter (fresh ids are strictly increasing). -/
theorem issueCalls_pending_low (specs : List CallSpec) : ∀ (s : ZState) (u : Nat),
    u ≤ s.lastTransactionID →
    (issueCalls s specs).pending (PKey.tid u) = s.pending (PKey.tid u) := by
  induction specs with
  | nil => intro s u hu; rfl
  | cons c rest ih =>
    intro s u hu
    rw [issueCalls_cons]
    rw [ih _ u (by rw [z_call_lastTID]; omega)]
    exact z_call_pending_other s _ _ _ _ _
      (by simp only [ne_eq, PKey.tid.injEq]; omega)

/-- After issuing a sequence of calls, the i-th call is pending under
transaction id `lastTransactionID + 1 + i`, recording the i-th promise. -/
theorem issueCalls_pending (specs : List CallSpec) : ∀ (s : ZState) (i : Nat),
    i < specs.length →
    ∃ r, (issueCalls s specs).pending (PKey.tid (s.lastTransactionID + 1 + i)) = some r ∧
         r.promiseId = pidAt specs i := by
  induction specs with
  | nil =>
    intro s i hi
    exact absurd hi (by simp)
  | cons c rest ih =>
    intro s i hi
    cases i with
    | zero =>
      refine ⟨{ Controller := c.controller, Topic := c.topic, Data := c.params, Action := none
                TransactionID := s.lastTransactionID + 1, promiseId := c.promiseId
                failTimer := s.nextTimerId + 1 }, ?_, rfl⟩
      rw [issueCalls_cons]
      simp only [Nat.add_zero]
      rw [issueCalls_pending_low rest _ _ (by rw [z_call_lastTID])]
      exact z_call_pending_self s c.controller c.topic c.params c.promiseId
    | succ j =>
      rw [issueCalls_cons]
      have hj : j < rest.length := by
        simp only [List.length_cons] at hi
        omega
      have hres := ih ((z_call s c.controller c.topic c.params c.promiseId).1) j hj
      rw [z_call_lastTID] at hres
      have harith : s.lastTransactionID + 1 + 1 + j = s.lastTransactionID + 1 + (j + 1) := by
        omega
      rw [harith] at hres
      exact hres

/-- `ws_onMessage` on a response matching a pending transaction id: exactly one
delivery event, to the recorded promise; only that id is removed from the
table. -/
theorem onMessage_tid_match (s : ZState) (m : InMsg) (t : Nat) (r : PendingReq)
    (hk : msgKey m = PKey.tid t) (hp : s.pending (PKey.tid t) = some r) :
    (ws_onMessage s m).2
      = [if isErrorMsg m then Ev.rejected r.promiseId (RVal.data m.Data)
         else Ev.fulfilled r.promiseId m.Data] ∧
    ∀ u, (ws_onMessage s m).1.pending (PKey.tid u)
      = if u = t then none else s.pending (PKey.tid u) := by
  constructor
  · rw [onMessage_events, hk, hp]
    cases he : isErrorMsg m <;> simp [he, subsLookup]
  · intro u
    rw [onMessage_state, hk, hp]
    by_cases hu : u = t <;> simp [hu]

/-- A synthetic response routes by its (nonzero) transaction id. -/
theorem respMsg_key (t : Nat) (err : Bool) (d : JsonData) (ht : t ≠ 0) :
    msgKey (respMsg t err d) = PKey.tid t := by
  simp [msgKey, respMsg, ht]

/-- A synthetic response is error-marked exactly as tagged. -/
theorem respMsg_isError (t : Nat) (err : Bool) (d : JsonData) :
    isErrorMsg (respMsg t err d) = err := by
  cases err <;> rfl

/-- Delivering any Nodup list of responses, each matching a pending
transaction id, produces exactly one delivery per response, to the promise the
pending entry records — whatever the order. -/
theorem runMessages_deliver (base : Nat) (pid : Nat → Nat) (errs : Nat → Bool)
    (ds : Nat → JsonData) :
    ∀ (l : List Nat) (st : ZState), l.Nodup →
    (∀ i ∈ l, ∃ r, st.pending (PKey.tid (base + 1 + i)) = some r ∧ r.promiseId = pid i) →
    (runMessages st (l.map (fun i => respMsg (base + 1 + i) (errs i) (ds i)))).2
      = l.map (fun i => deliverEv (pid i) (errs i) (ds i)) := by
  intro l
  induction l with
  | nil => intro st _ _; rfl
  | cons i0 rest ih =>
    intro st hnd hp
    rw [List.nodup_cons] at hnd
    obtain ⟨hni, hndr⟩ := hnd
    obtain ⟨r, hr, hrp⟩ := hp i0 (List.mem_cons_self i0 rest)
    have hne0 : base + 1 + i0 ≠ 0 := by omega
    have hkey := respMsg_key (base + 1 + i0) (errs i0) (ds i0) hne0
    have hstep := onMessage_tid_match st (respMsg (base + 1 + i0) (errs i0) (ds i0))
      (base + 1 + i0) r hkey hr
    have hp2 : ∀ i ∈ rest,
        ∃ r2, ((ws_onMessage st (respMsg (base + 1 + i0) (errs i0) (ds i0))).1).pending
          (PKey.tid (base + 1 + i)) = some r2 ∧ r2.promiseId = pid i := by
      intro i hi
      obtain ⟨r2, hr2, hrp2⟩ := hp i (List.mem_cons_of_mem i0 hi)
      refine ⟨r2, ?_, hrp2⟩
      rw [hstep.2 (base + 1 + i)]
      have hii : i ≠ i0 := by
        intro h
        exact hni (h ▸ hi)
      have hneq : base + 1 + i ≠ base + 1 + i0 := by omega
      rw [if_neg hneq]
      exact hr2
    have htail := ih ((ws_onMessage st (respMsg (base + 1 + i0) (errs i0) (ds i0))).1)
      hndr hp2
    simp only [List.map_cons, runMessages]
    rw [hstep.1, htail]
    have hhead : (if isErrorMsg (respMsg (base + 1 + i0) (errs i0) (ds i0)) then
          Ev.rejected r.promiseId (RVal.data (respMsg (base + 1 + i0) (errs i0) (ds i0)).Data)
        else Ev.fulfilled r.promiseId (respMsg (base + 1 + i0) (errs i0) (ds i0)).Data)
        = deliverEv (pid i0) (errs i0) (ds i0) := by
      rw [respMsg_isError, hrp]
      cases errs i0 <;> rfl
    rw [hhead]
    rfl

/-- C1: issue any sequence of calls on one connection, then deliver their
responses in ANY order (any Nodup index list `perm`, each response carrying
the transaction id its call was allocated): every response is delivered
exactly once, to the promise of the call that allocated its transaction id —
correlation is by transaction id alone, never positional. -/
theorem tid_correlation (s0 : ZState) (specs : List CallSpec) (perm : List Nat)
    (errs : Nat → Bool) (ds : Nat → JsonData)
    (hnd : perm.Nodup) (hlt : ∀ i ∈ perm, i < specs.length) :
    (runMessages (issueCalls s0 specs)
        (perm.map (fun i => respMsg (s0.lastTransactionID + 1 + i) (errs i) (ds i)))).2
      = perm.map (fun i => deliverEv (pidAt specs i) (errs i) (ds i)) := by
  apply runMessages_deliver s0.lastTransactionID (pidAt specs) errs ds perm
    (issueCalls s0 specs) hnd
  intro i hi
  exact issueCalls_pending specs s0 i (hlt i hi)

/-- Two calls issued in order: `Trading/QueryOrders` (promise 101) then
`Market/QueryMarkets` (promise 102). -/
def specsC1 : List CallSpec :=
  [{ controller := "Trading", topic := "QueryOrders", params := some "acct", promiseId := 101 },
   { controller := "Market", topic := "QueryMarkets", params := none, promiseId := 102 }]

/-- Witness for C1: the two responses arrive in REVERSED order (`perm = [1, 0]`)
and are still paired with the right promises. -/
theorem tid_correlation_witness :
    ([1, 0] : List Nat).Nodup ∧ (∀ i ∈ ([1, 0] : List Nat), i < specsC1.length) ∧
    (runMessages (issueCalls (initState { accessToken := "t", expires_in := 100 }) specsC1)
        (([1, 0] : List Nat).map (fun i =>
          respMsg ((initState { accessToken := "t", expires_in := 100 }).lastTransactionID + 1 + i)
            ((fun _ => false) i) ((fun i => if i = 0 then "d0" else "d1") i)))).2
      = ([1, 0] : List Nat).map (fun i =>
          deliverEv (pidAt specsC1 i) ((fun _ => false) i)
            ((fun i => if i = 0 then "d0" else "d1") i)) :=
  ⟨by decide, by decide,
   tid_correlation (initState { accessToken := "t", expires_in := 100 }) specsC1 [1, 0]
     (fun _ => false) (fun i => if i = 0 then "d0" else "d1") (by decide) (by decide)⟩

/-- A state with one active subscription (registered through `z_subscribe`)
and a live idle-ping timer, as reached from a fresh client. -/
def livenessState : ZState :=
  (z_subscribe (initState { accessToken := "tok", expires_in := 100 })
    "Market" "Markets" (some 3) 11).1

/-- A pending subscribe request for key `Market:Markets` awaiting its
confirmation, with one callback (id 3) registered for the key. -/
def pendingSubC9 : PendingReq :=
  { Controller := "Market", Topic := "Markets", Data := none, Action := some "Sub"
    TransactionID := 1, promiseId := 7, failTimer := 2 }

/-- A client state with the pending subscribe `pendingSubC9` and a registered
callback for its key. -/
def stateC9 : ZState :=
  { lastTransactionID := 1
    pending := fun k => if k = PKey.topic "Market:Markets" then some pendingSubC9 else none
    subscriptions := { length := 0, props := fun k => if k = "Market:Markets" then some [3] else none }
    pingTimer := some 1
    tokenTimer := none
    subscriptionTimer := some 0
    timers := fun j => if j = 2 then some CALL_TIMEOUT_MS else none
    nextTimerId := 3
    token := { accessToken := "t", expires_in := 100 } }

/-- An error-marked inbound message for key `Market:Markets` (no TransactionID). -/
def msgC9 : InMsg :=
  { TransactionID := none, Controller := "Market", Topic := "Markets"
    Action := some "Error", Result := none, Data := "boom" }

/-- C9 counterexample: an inbound message that completes a pending entry and is
marked `Error` is NOT delivered to the callbacks registered for its key — the
Error branch of `ws_onMessage` returns before the subscription broadcast, so
the two dispatch paths are not unconditional. -/
theorem dispatch_error_counterexample :
    (stateC9.pending (msgKey msgC9)).isSome = true ∧
    subsLookup stateC9.subscriptions (msgKey msgC9) = some [3] ∧
    (ws_onMessage stateC9 msgC9).2 = [Ev.rejected 7 (RVal.data "boom")] ∧
    Ev.callback 3 msgC9.Data ∉ (ws_onMessage stateC9 msgC9).2 := by decide

/-- C9 amended: the two dispatch paths of `ws_onMessage` are independent and
both run on every inbound message, EXCEPT that a message which completes a
pending entry while marked `Error` (by `Action` or `Result`) skips the
subscription broadcast; a non-error message completing a pending entry is still
delivered to all callbacks registered for its key. -/
theorem dispatch_paths_amended (s : ZState) (m : InMsg) (cbs : List Nat)
    (hsub : subsLookup s.subscriptions (msgKey m) = some cbs) :
    (s.pending (msgKey m) = none →
      (ws_onMessage s m).2 = cbs.map (fun c => Ev.callback c m.Data)) ∧
    (∀ d, s.pending (msgKey m) = some d → isErrorMsg m = false →
      (ws_onMessage s m).2
        = Ev.fulfilled d.promiseId m.Data :: cbs.map (fun c => Ev.callback c m.Data)) ∧
    (∀ d, s.pending (msgKey m) = some d → isErrorMsg m = true →
      (ws_onMessage s m).2 = [Ev.rejected d.promiseId (RVal.data m.Data)]) := by
  refine ⟨fun hp => ?_, fun d hp he => ?_, fun d hp he => ?_⟩
  · rw [onMessage_events]; simp [hp, hsub]
  · rw [onMessage_events]; simp [hp, he, hsub]
  · rw [onMessage_events]; simp [hp, he]

/-- A state for the C9 witness: a registered callback for `Zenith:ServerInfo`
and a pending subscribe for the same key. -/
def stateC9w : ZState :=
  { lastTransactionID := 4
    pending := fun k => if k = PKey.topic "Zenith:ServerInfo"
        then some { Controller := "Zenith", Topic := "ServerInfo", Data := none
                    Action := some "Sub", TransactionID := 4, promiseId := 21, failTimer := 6 }
        else none
    subscriptions := { length := 0, props := fun k => if k = "Zenith:ServerInfo" then some [9] else none }
    pingTimer := some 5
    tokenTimer := none
    subscriptionTimer := some 4
    timers := fun j => if j = 6 then some CALL_TIMEOUT_MS else none
    nextTimerId := 7
    token := { accessToken := "t", expires_in := 100 } }

/-- A non-error inbound message for key `Zenith:ServerInfo`. -/
def msgC9w : InMsg :=
  { TransactionID := none, Controller := "Zenith", Topic := "ServerInfo"
    Action := none, Result := none, Data := "info" }

/-- Witness for the amended C9: a non-error message completing the pending
subscribe is also broadcast to the registered callback. -/
theorem dispatch_paths_amended_witness :
    subsLookup stateC9w.subscriptions (msgKey msgC9w) = some [9] ∧
    (ws_onMessage stateC9w msgC9w).2 = [Ev.fulfilled 21 "info", Ev.callback 9 "info"] :=
  ⟨by decide,
   (dispatch_paths_amended stateC9w msgC9w [9] (by decide)).2.1
     { Controller := "Zenith", Topic := "ServerInfo", Data := none
       Action := some "Sub", TransactionID := 4, promiseId := 21, failTimer := 6 }
     (by decide) (by decide)⟩

/-- A pending subscribe request for key `Trading:Orders` with promise id 9. -/
def pendingSubC4 : PendingReq :=
  { Controller := "Trading", Topic := "Orders", Data := none, Action := some "Sub"
    TransactionID := 2, promiseId := 9, failTimer := 4 }

/-- A client state with TWO callbacks (ids 3 then 4, in registration order)
registered for key `Trading:Orders`, plus a pending subscribe for that key. -/
def stateC4 : ZState :=
  { lastTransactionID := 2
    pending := fun k => if k = PKey.topic "Trading:Orders" then some pendingSubC4 else none
    subscriptions := { length := 0, props := fun k => if k = "Trading:Orders" then some [3, 4] else none }
    pingTimer := some 3
    tokenTimer := none
    subscriptionTimer := some 2
    timers := fun j => if j = 4 then some CALL_TIMEOUT_MS else none
    nextTimerId := 5
    token := { accessToken := "t", expires_in := 100 } }

/-- An error-marked inbound message for key `Trading:Orders`. -/
def msgC4 : InMsg :=
  { TransactionID := none, Controller := "Trading", Topic := "Orders"
    Action := none, Result := some "Error", Data := "err" }

/-- C4 counterexample: with two callbacks registered for a key, a matching
inbound message that is marked `Error` while a pending entry exists for the key
is delivered to NEITHER callback — the Error branch of `ws_onMessage` returns
before the broadcast. -/
theorem subscription_broadcast_counterexample :
    stateC4.subscriptions.props "Trading:Orders" = some [3, 4] ∧
    msgKey msgC4 = PKey.topic "Trading:Orders" ∧
    (ws_onMessage stateC4 msgC4).2 = [Ev.rejected 9 (RVal.data "err")] ∧
    Ev.callback 3 msgC4.Data ∉ (ws_onMessage stateC4 msgC4).2 ∧
    Ev.callback 4 msgC4.Data ∉ (ws_onMessage stateC4 msgC4).2 := by decide

/-- C4 amended: for a key with two or more registered callbacks, every matching
inbound message without a TransactionID — except one that is marked `Error`
while completing a pending entry for the key — is delivered to ALL callbacks
registered for the key, in list order; and the list order is registration
order, because `z_subscribe` appends each new callback at the end. -/
theorem subscription_broadcast_order (s : ZState) (key : String) (cbs : List Nat) (m : InMsg)
    (hsub : s.subscriptions.props key = some cbs)
    (h2 : 2 ≤ cbs.length)
    (hkey : msgKey m = PKey.topic key)
    (hok : isErrorMsg m = false ∨ s.pending (PKey.topic key) = none) :
    (∃ pre, (ws_onMessage s m).2 = pre ++ cbs.map (fun c => Ev.callback c m.Data) ∧
        ∀ e ∈ pre, ∀ c d, e ≠ Ev.callback c d) ∧
    (∀ (s1 : ZState) (ctl tp : String) (c pid : Nat), makeKey ctl tp = key →
      ((z_subscribe s1 ctl tp (some c) pid).1).subscriptions.props key
        = some ((s1.subscriptions.props key).getD [] ++ [c])) := by
  constructor
  · rw [onMessage_events]
    simp only [hkey]
    cases hp : s.pending (PKey.topic key) with
    | none =>
      refine ⟨[], ?_, by simp⟩
      simp [hp, subsLookup, hsub]
    | some d =>
      have he : isErrorMsg m = false := by
        cases hok with
        | inl h => exact h
        | inr h => rw [hp] at h; cases h
      refine ⟨[Ev.fulfilled d.promiseId m.Data], ?_, by simp⟩
      simp [hp, he, subsLookup, hsub]
  · intro s1 ctl tp c pid hmk
    simp [z_subscribe, pushSub, subscriptionPing, resetPingTimeout, setT, clearT, hmk]

/-- A state with two callbacks (7 then 8) registered for `Market:Markets` and
nothing pending. -/
def stateC4w : ZState :=
  { lastTransactionID := 3
    pending := fun _ => none
    subscriptions := { length := 0, props := fun k => if k = "Market:Markets" then some [7, 8] else none }
    pingTimer := some 2
    tokenTimer := none
    subscriptionTimer := some 1
    timers := fun _ => none
    nextTimerId := 3
    token := { accessToken := "t", expires_in := 100 } }

/-- A market update message for key `Market:Markets`. -/
def msgC4w : InMsg :=
  { TransactionID := none, Controller := "Market", Topic := "Markets"
    Action := none, Result := none, Data := "upd" }

/-- Witness for the amended C4: both registered callbacks receive a matching
update, in registration order. -/
theorem subscription_broadcast_order_witness :
    stateC4w.subscriptions.props "Market:Markets" = some [7, 8] ∧
    (∃ pre, (ws_onMessage stateC4w msgC4w).2
        = pre ++ [7, 8].map (fun c => Ev.callback c msgC4w.Data) ∧
        ∀ e ∈ pre, ∀ c d, e ≠ Ev.callback c d) :=
  ⟨by decide,
   (subscription_broadcast_order stateC4w "Market:Markets" [7, 8] msgC4w
      (by decide) (by decide) (by decide) (Or.inl (by decide))).1⟩

/-- Witness for C6: in `livenessState` a subscription is registered and the
ping timer is armed, yet the array length is 0, so firing the liveness timer
(handle 0, armed with the 10 s delay) does not re-arm it. -/
theorem subscription_liveness_not_rearmed_witness :
    livenessState.subscriptions.props "Market:Markets" = some [3] ∧
    livenessState.pingTimer.isSome = true ∧
    livenessState.timers 0 = some SUB_PING_TIMEOUT_MS ∧
    livenessState.subscriptions.length = 0 ∧
    subscriptionTimerFire livenessState 0 = timerOff livenessState 0 :=
  ⟨by decide, by decide, by decide, by decide,
   subscription_liveness_not_rearmed.2 livenessState 0 (by decide)⟩

end Zenith
